import Mathlib

/-!
Verification of the PMC complaint checker against its specification.

The development shallowly embeds the two source modules:
* `pmc_complaint_checker_v2.py` — token validation, listing-table extraction,
  drill-down (tracking modal) extraction, per-token processing, batch loop;
* `repository.py` — the MySQL-backed persistence layer (`save_complaint`).

Browser interactions are modelled by explicit outcome data: each Selenium
call site that can time out, fail to find an element, or succeed is a
constructor of an outcome type, and the extraction functions are total
functions of those outcomes, mirroring the Python control flow (every
exception handler of the source corresponds to a constructor).  Python
dictionaries built key-by-key are modelled as association lists in
insertion order; values that may be strings or booleans are modelled by
`PyVal`.  The database is modelled as in-memory lists of rows, with the
MySQL statements `INSERT ... ON DUPLICATE KEY UPDATE` (primary key
`token`) and `INSERT IGNORE` (unique key `(token, action_date)`)
modelled as explicit list operations.
-/

/-- A Python value stored in one of the result dictionaries: the listing
dictionary mixes strings and booleans (`has_track_button`). -/
inductive PyVal where
  | vstr (s : String)
  | vbool (b : Bool)
deriving DecidableEq, Repr

/-- Python truthiness for the values appearing in the result dictionaries:
a string is truthy iff non-empty, a boolean is its own truth value. -/
def py_truthy : PyVal → Bool
  | .vstr s => s ≠ ""
  | .vbool b => b

/-- Truthiness of `dict.get(key)`: `None` (missing key) is falsy. -/
def opt_truthy : Option PyVal → Bool
  | none => false
  | some v => py_truthy v

/-- Python `s.strip()` (for ASCII whitespace): remove leading and
trailing whitespace characters.  Used to model every `.text.strip()` at
the Selenium read sites. -/
def py_strip (s : String) : String :=
  ⟨List.reverse (List.dropWhile Char.isWhitespace
    (List.reverse (List.dropWhile Char.isWhitespace s.data)))⟩

/-- Python `s.startswith("T")` on the character list of `s`: true iff the
string is non-empty and its first character is `T`. -/
def py_startswith_T : List Char → Bool
  | c :: _ => c = 'T'
  | [] => false

/-- The character predicate of CPython's `str.isdigit` (Unicode
`Numeric_Type` of `Digit` or `Decimal`): exact on ASCII characters, where
it accepts exactly `0`–`9`; beyond ASCII it also accepts Unicode digit
characters, of which the common blocks are listed — the superscripts
`¹ ² ³` and `⁰ ⁴`–`⁹`, the subscripts `₀`–`₉`, the Arabic-Indic digits
`٠`–`٩`, the Extended Arabic-Indic digits `۰`–`۹` and the Devanagari
digits `०`–`९`.  (CPython accepts further digit blocks not enumerated
here; the development relies only on the ASCII behaviour and on the
acceptance of the listed characters.) -/
def py_isdigit_char (c : Char) : Bool :=
  c.isDigit
    || decide (c.toNat = 0xB2) || decide (c.toNat = 0xB3)
    || decide (c.toNat = 0xB9) || decide (c.toNat = 0x2070)
    || decide (0x2074 ≤ c.toNat ∧ c.toNat ≤ 0x2079)
    || decide (0x2080 ≤ c.toNat ∧ c.toNat ≤ 0x2089)
    || decide (0x660 ≤ c.toNat ∧ c.toNat ≤ 0x669)
    || decide (0x6F0 ≤ c.toNat ∧ c.toNat ≤ 0x6F9)
    || decide (0x966 ≤ c.toNat ∧ c.toNat ≤ 0x96F)

/-- Python `s.isdigit()`: true iff `s` is non-empty and every character
satisfies the digit predicate. -/
def py_isdigit (s : List Char) : Bool :=
  !s.isEmpty && s.all py_isdigit_char

/-- `validate_token` from `pmc_complaint_checker_v2.py`:
`token.startswith("T") and token[1:].isdigit() and len(token) > 1`. -/
def validate_token (token : String) : Bool :=
  py_startswith_T token.data && py_isdigit (token.data.drop 1) &&
    decide (1 < token.length)

/-- `_replace_empty_with_unknown` from `pmc_complaint_checker_v2.py`:
replaces every empty-string value of the dictionary with `"Unknown"`,
leaving keys, order and non-string values untouched. -/
def replace_empty_with_unknown (d : List (String × PyVal)) :
    List (String × PyVal) :=
  d.map (fun kv => if kv.2 = PyVal.vstr "" then (kv.1, PyVal.vstr "Unknown") else kv)

/-- The first row of the listing table as seen by
`extract_token_details_from_table`: the raw text of its `td` cells and the
ids of the `button` elements found inside the eighth cell (index 7). -/
structure ListingRow where
  cells : List String
  col7_buttons : List String
deriving DecidableEq, Repr

/-- Outcome of waiting for and reading the listing table: either the
bounded wait for a data row times out (the `TimeoutException` handler, in
particular when the table is present but empty), or the rows found by
`find_elements`. -/
inductive ListingOutcome where
  | waitTimeout
  | rows (rs : List ListingRow)
deriving DecidableEq, Repr

/-- The dictionary built by `extract_token_details_from_table` before the
final `_replace_empty_with_unknown` call: empty when the wait timed out,
when no row was found, or when the first row has fewer than 7 cells;
otherwise the seven fixed columns plus the track-button fields. -/
def raw_token_details : ListingOutcome → List (String × PyVal)
  | .waitTimeout => []
  | .rows rs =>
    match rs with
    | [] => []
    | first :: _ =>
      if 7 ≤ first.cells.length then
        let c := fun i => py_strip (first.cells.getD i "")
        let base : List (String × PyVal) :=
          [("sr_no", .vstr (c 0)), ("token_no", .vstr (c 1)),
           ("date", .vstr (c 2)), ("description", .vstr (c 3)),
           ("location", .vstr (c 4)), ("complaint_type", .vstr (c 5)),
           ("status", .vstr (c 6))]
        let track_buttons :=
          if 7 < first.cells.length then first.col7_buttons else []
        match track_buttons with
        | b :: _ =>
          base ++ [("has_track_button", .vbool true), ("track_button_id", .vstr b)]
        | [] => base ++ [("has_track_button", .vbool false)]
      else []

/-- `extract_token_details_from_table`: the raw listing dictionary with
every empty-string value replaced by `"Unknown"`. -/
def extract_token_details_from_table (o : ListingOutcome) :
    List (String × PyVal) :=
  replace_empty_with_unknown (raw_token_details o)

/-- One tracking-history row produced by `extract_track_details` (the
`track_detail` dictionary: twelve fixed string fields). -/
structure TrackDetail where
  sr : String
  ticket_no : String
  ticket_date : String
  from_user : String
  complaints : String
  office : String
  department : String
  to_user : String
  remark : String
  action_date : String
  advice : String
  current_action : String
deriving DecidableEq, Repr

/-- The `track_detail` dictionary for a history row with cell texts
`cols` (only applied under the guard `len(cols) >= 11`): the first eleven
cells in fixed order, and `current_action` taken from the twelfth cell
when present, defaulting to the empty string otherwise. -/
def track_detail_of_cols (cols : List String) : TrackDetail where
  sr := py_strip (cols.getD 0 "")
  ticket_no := py_strip (cols.getD 1 "")
  ticket_date := py_strip (cols.getD 2 "")
  from_user := py_strip (cols.getD 3 "")
  complaints := py_strip (cols.getD 4 "")
  office := py_strip (cols.getD 5 "")
  department := py_strip (cols.getD 6 "")
  to_user := py_strip (cols.getD 7 "")
  remark := py_strip (cols.getD 8 "")
  action_date := py_strip (cols.getD 9 "")
  advice := py_strip (cols.getD 10 "")
  current_action := if 11 < cols.length then py_strip (cols.getD 11 "") else ""

/-- The loop over `//tbody[@id='track']/tr` in `extract_track_details`:
rows with fewer than 11 cells are skipped, every other row is mapped to a
`TrackDetail`. -/
def track_rows_details (rows : List (List String)) : List TrackDetail :=
  rows.filterMap
    (fun cols => if 11 ≤ cols.length then some (track_detail_of_cols cols) else none)

/-- The `track_info` dictionary returned by `extract_track_details`. -/
structure TrackInfo where
  overall_info : List (String × String)
  tracking_details : List TrackDetail
deriving DecidableEq, Repr

/-- The initial `{"overall_info": {}, "tracking_details": []}` skeleton,
also the value modelling the `{}` placeholder of a result without
drill-down. -/
def empty_track_info : TrackInfo := ⟨[], []⟩

/-- The tracking modal as seen by `extract_track_details` once it is
present: the texts of the four overview elements and the raw cell texts of
the history rows. -/
structure ModalData where
  token_no : String
  status : String
  complaint_category : String
  expected_resolved_date : String
  track_rows : List (List String)
deriving DecidableEq, Repr

/-- Outcome of the drill-down protocol: clicking the button or finding an
element raises (the generic `except` handler), the bounded wait for the
modal times out, or the modal is read successfully. -/
inductive TrackOutcome where
  | buttonFail (msg : String)
  | modalTimeout
  | modal (md : ModalData)
deriving DecidableEq, Repr

/-- `extract_track_details`: on any caught exception the initial skeleton
is returned; on success the four overview fields (stripped, verbatim — no
sentinel substitution) and the mapped history rows. -/
def extract_track_details : TrackOutcome → TrackInfo
  | .buttonFail _ => empty_track_info
  | .modalTimeout => empty_track_info
  | .modal md =>
    { overall_info :=
        [("token_no", py_strip md.token_no), ("status", py_strip md.status),
         ("complaint_category", py_strip md.complaint_category),
         ("expected_resolved_date", py_strip md.expected_resolved_date)],
      tracking_details := track_rows_details md.track_rows }

/-- Browser behaviour for one `process_token` call, one constructor per
exception path of the source: `driver.get` raising (outer handler), the
wait for the search box timing out (`TimeoutException`), the search button
missing (`NoSuchElementException`), any other exception of the inner
block, or the search succeeding — in which case the listing outcome, the
text of the `table-data` element (`none` when `find_element` raises in the
bare-`except` fallback) and the drill-down behaviour per button id are
available. -/
inductive PageBehavior where
  | navError (msg : String)
  | searchTimeout
  | elementMissing (msg : String)
  | innerError (msg : String)
  | loaded (listing : ListingOutcome) (table_body_text : Option String)
      (track : String → TrackOutcome)

/-- The result dictionary of `process_token`: token, overall status,
optional error message, the listing dictionary and the drill-down data
(`empty_track_info` models the `{}` placeholder). -/
structure ProcResult where
  token : String
  status : PyVal
  error : Option String
  token_details : List (String × PyVal)
  complaint_track : TrackInfo
deriving DecidableEq, Repr

/-- `process_token` from `pmc_complaint_checker_v2.py`.  The result starts
as `{"token": token, "status": "Failed", "error": None, ...}`; every
exception path only fills `error`; on a successful search the listing
dictionary is extracted, and either (truthy dictionary) status and
drill-down are filled in, or (empty dictionary) the `table-data` element's
text decides between the no-data error and the fallback error. -/
def process_token (beh : PageBehavior) (token : String) : ProcResult :=
  let base : ProcResult :=
    ⟨token, .vstr "Failed", none, [], empty_track_info⟩
  match beh with
  | .navError m => { base with error := some ("Failed to load website: " ++ m) }
  | .searchTimeout => { base with error := some "Timeout waiting for page elements" }
  | .elementMissing m => { base with error := some ("Element not found: " ++ m) }
  | .innerError m => { base with error := some ("Error processing token: " ++ m) }
  | .loaded listing tbody track =>
    let td := extract_token_details_from_table listing
    if td.isEmpty then
      match tbody with
      | none => { base with error := some "Could not find any data for this token" }
      | some txt =>
        if py_strip txt = "" then
          { base with error := some "No data found for this token" }
        else base
    else
      let status := (td.lookup "status").getD (.vstr "Unknown")
      let ct :=
        if opt_truthy (td.lookup "has_track_button") &&
            opt_truthy (td.lookup "track_button_id") then
          match td.lookup "track_button_id" with
          | some (.vstr bid) => extract_track_details (track bid)
          | _ => empty_track_info
        else empty_track_info
      { base with token_details := td, status := status, complaint_track := ct }

/-- The per-token loop of `fetch_token_details`: one `process_token` call
per token, results appended in order; the politeness sleep and the
printing have no effect on the results. -/
def fetch_token_details (beh : String → PageBehavior) (tokens : List String) :
    List ProcResult :=
  tokens.map (fun t => process_token (beh t) t)

/-- The view of a complaint dictionary taken by
`MySQLRepository.save_complaint`: the keys it reads via `.get`, each
`Option` modelling a possibly missing key. -/
structure ComplaintData where
  token : Option String
  status : Option PyVal
  token_details : Option (List (String × PyVal))
  complaint_track : Option TrackInfo
deriving DecidableEq, Repr

/-- The result dictionary of `process_token` viewed as `save_complaint`
input (all four keys are always present in the dictionary). -/
def result_to_data (r : ProcResult) : ComplaintData :=
  ⟨some r.token, some r.status, some r.token_details, some r.complaint_track⟩

/-- A row of the `complaints` table (primary key `token`). -/
structure ComplaintRow where
  token : String
  status : Option PyVal
  description : PyVal
  location : PyVal
  complaint_type : PyVal
  complaint_category : Option String
  expected_resolved_date : Option String
deriving DecidableEq, Repr

/-- A row of the `tracking_history` table (the auto-increment `id` is the
position in the list; unique key `(token, action_date)`). -/
structure TrackingRow where
  token : String
  action_date : String
  from_user : String
  to_user : String
  status : String
  remark : String
deriving DecidableEq, Repr

/-- The two-table database state. -/
structure DB where
  complaints : List ComplaintRow
  tracking_history : List TrackingRow
deriving DecidableEq, Repr

/-- The `tracking_details` list read by `save_complaint`:
`complaint_data.get("complaint_track", {}).get("tracking_details", [])`. -/
def tracking_of (c : ComplaintData) : List TrackDetail :=
  (c.complaint_track.map TrackInfo.tracking_details).getD []

/-- The values bound by the parent `INSERT` of `save_complaint`: status
from the top level, description/location/complaint_type from the listing
dictionary with default `"Unknown"`, category and expected date from the
drill-down overview with default `NULL`. -/
def mkComplaintRow (t : String) (c : ComplaintData) : ComplaintRow :=
  let td := c.token_details.getD []
  let oi := (c.complaint_track.map TrackInfo.overall_info).getD []
  { token := t
    status := c.status
    description := (td.lookup "description").getD (.vstr "Unknown")
    location := (td.lookup "location").getD (.vstr "Unknown")
    complaint_type := (td.lookup "complaint_type").getD (.vstr "Unknown")
    complaint_category := oi.lookup "complaint_category"
    expected_resolved_date := oi.lookup "expected_resolved_date" }

/-- The values bound by one child `INSERT IGNORE` of `save_complaint`
(`status` column takes the event's `current_action`). -/
def mkTrackingRow (t : String) (e : TrackDetail) : TrackingRow :=
  ⟨t, e.action_date, e.from_user, e.to_user, e.current_action, e.remark⟩

/-- `INSERT ... ON DUPLICATE KEY UPDATE` on `complaints` (primary key
`token`): if a row with the same token exists, every non-key column is
overwritten with the new values; otherwise the row is appended. -/
def upsert_complaint (rows : List ComplaintRow) (r : ComplaintRow) :
    List ComplaintRow :=
  if rows.any (fun x => x.token == r.token) then
    rows.map (fun x => if x.token == r.token then r else x)
  else rows ++ [r]

/-- `INSERT IGNORE` on `tracking_history` (unique key
`(token, action_date)`): if a row with the same key exists the statement
is silently skipped, otherwise the row is appended. -/
def insert_ignore_tracking (rows : List TrackingRow) (r : TrackingRow) :
    List TrackingRow :=
  if rows.any (fun x => x.token == r.token && x.action_date == r.action_date) then
    rows
  else rows ++ [r]

/-- One SQL write executed by `save_complaint`. -/
inductive WriteOp where
  | parent (r : ComplaintRow)
  | child (r : TrackingRow)
deriving DecidableEq, Repr

/-- Effect of one write on the database state. -/
def apply_write (db : DB) : WriteOp → DB
  | .parent r => { db with complaints := upsert_complaint db.complaints r }
  | .child r =>
    { db with tracking_history := insert_ignore_tracking db.tracking_history r }

/-- The sequence of writes executed by one `save_complaint` call: nothing
when the token is missing or empty (`if not token: return`), otherwise the
parent upsert followed by one child insert per tracking event, in order. -/
def save_ops (c : ComplaintData) : List WriteOp :=
  match c.token with
  | none => []
  | some t =>
    if t = "" then []
    else
      .parent (mkComplaintRow t c) ::
        (tracking_of c).map (fun e => .child (mkTrackingRow t e))

/-- `MySQLRepository.save_complaint`: execute the writes in order. -/
def save_complaint (db : DB) (c : ComplaintData) : DB :=
  (save_ops c).foldl apply_write db

/-- Concrete sample tracking event used in witnesses. -/
def sample_event1 : TrackDetail :=
  ⟨"1", "TKT100", "01-01-2024", "Citizen", "Pothole", "WardA", "Roads",
   "Engineer", "Assigned to ward office", "02-01-2024", "Inspect", "In Progress"⟩

/-- The same tracking event with a different remark (same natural key). -/
def sample_event2 : TrackDetail :=
  { sample_event1 with remark := "Work completed" }

/-- Concrete sample complaint record used in witnesses. -/
def sample_data1 : ComplaintData :=
  ⟨some "T60137", some (.vstr "In Progress"),
   some [("description", .vstr "Pothole on FC Road"), ("location", .vstr "FC Road")],
   some ⟨[("complaint_category", "Roads")], [sample_event1]⟩⟩

/-- A second run's record for the same token: same event key, new remark. -/
def sample_data2 : ComplaintData :=
  ⟨some "T60137", some (.vstr "Closed"),
   some [("description", .vstr "Pothole on FC Road"), ("location", .vstr "FC Road")],
   some ⟨[("complaint_category", "Roads")], [sample_event2]⟩⟩

/-! ### Auxiliary predicates -/

/-- Primary-key invariant of the `complaints` table: no two rows share a
token. -/
def pk_unique (rows : List ComplaintRow) : Prop :=
  rows.Pairwise (fun a b => a.token ≠ b.token)

/-- Foreign-key invariant: every `tracking_history` row references an
existing `complaints` row. -/
def fk_ok (db : DB) : Prop :=
  ∀ r ∈ db.tracking_history, ∃ p ∈ db.complaints, p.token = r.token

/-! ### Theorems -/

/-- The validator condition, stated on the character list of the token. -/
lemma validate_token_data (l : List Char) :
    (py_startswith_T l && py_isdigit (l.drop 1) && decide (1 < l.length)) = true ↔
      ∃ ds, l = 'T' :: ds ∧ ds ≠ [] ∧ ∀ c ∈ ds, py_isdigit_char c = true := by
  cases l with
  | nil => simp [py_startswith_T]
  | cons c cs =>
    simp [py_startswith_T, py_isdigit, List.all_eq_true, List.isEmpty_iff,
      Nat.lt_succ_iff, and_assoc]
    exact fun _ h _ => List.length_pos.mpr h

/-- On ASCII characters the digit predicate coincides with `0`–`9`. -/
lemma py_isdigit_char_ascii (c : Char) (h : c.toNat < 128) :
    py_isdigit_char c = c.isDigit := by
  cases hd : c.isDigit with
  | true => simp [py_isdigit_char, hd]
  | false =>
    simp only [py_isdigit_char, hd, Bool.false_or, Bool.or_eq_false_iff,
      decide_eq_false_iff_not]
    omega

/-- Counterexample to C2 as stated: `validate_token` accepts `"T²"`
(Python's `str.isdigit` is true on the superscript digit `²`), but `"T²"`
does not match `^T[0-9]+$` — its character after the first is not a
decimal digit.  So the claimed iff over every string fails. -/
theorem validate_token_accepts_unicode_digit :
    validate_token "T²" = true ∧
    ¬∃ ds, "T²".data = 'T' :: ds ∧ ds ≠ [] ∧ ∀ c ∈ ds, c.isDigit = true := by
  refine ⟨by decide, ?_⟩
  rintro ⟨ds, heq, -, hall⟩
  have heq2 : ('T' : Char) :: ['²'] = 'T' :: ds := heq
  have hds : ds = ['²'] := by
    injection heq2 with h1 h2
    exact h2.symm
  have hmem : ('²' : Char) ∈ ds := by rw [hds]; exact List.mem_singleton.mpr rfl
  exact absurd (hall '²' hmem) (by decide)

/-- C2 (amended): for every string of ASCII characters, `validate_token s`
is true iff `s` starts with the literal character `T`, has length greater
than one, and every character after the first is a decimal digit — i.e.
`s` matches `^T[0-9]+$`; in particular it accepts `"T60137"` and rejects
`"T"`, `"ABC123"` and `"T12A3"`.  (Without the ASCII restriction the iff
fails: Python's `str.isdigit` also accepts non-ASCII Unicode digit
characters such as `²`.) -/
theorem validate_token_ascii_spec :
    (∀ s : String, (∀ c ∈ s.data, c.toNat < 128) →
      (validate_token s = true ↔
        ∃ ds, s.data = 'T' :: ds ∧ ds ≠ [] ∧ ∀ c ∈ ds, c.isDigit = true)) ∧
    validate_token "T60137" = true ∧ validate_token "T" = false ∧
    validate_token "ABC123" = false ∧ validate_token "T12A3" = false := by
  refine ⟨fun s hA => ?_, by decide, by decide, by decide, by decide⟩
  constructor
  · intro hv
    obtain ⟨ds, heq, hne, hall⟩ := (validate_token_data s.data).mp hv
    refine ⟨ds, heq, hne, fun c hc => ?_⟩
    rw [← py_isdigit_char_ascii c (hA c (by
      rw [heq]; exact List.mem_cons_of_mem _ hc))]
    exact hall c hc
  · rintro ⟨ds, heq, hne, hall⟩
    refine (validate_token_data s.data).mpr ⟨ds, heq, hne, fun c hc => ?_⟩
    rw [py_isdigit_char_ascii c (hA c (by
      rw [heq]; exact List.mem_cons_of_mem _ hc))]
    exact hall c hc

/-- Witness for amended C2: the iff instantiated at the ASCII string
`"T60137"`. -/
theorem validate_token_ascii_spec_witness :
    validate_token "T60137" = true ↔
      ∃ ds, "T60137".data = 'T' :: ds ∧ ds ≠ [] ∧ ∀ c ∈ ds, c.isDigit = true :=
  validate_token_ascii_spec.1 "T60137" (by decide)

/-- C10: `validate_token` is total and exception-free: on every string it
evaluates to a boolean (there is no error or exception outcome in its
codomain), and on the empty string and the one-character string `"T"` it
evaluates to `false` — the empty-prefix and empty-suffix cases are handled
without any out-of-bounds access. -/
theorem validate_token_total :
    (∀ s : String, validate_token s = true ∨ validate_token s = false) ∧
    validate_token "" = false ∧ validate_token "T" = false := by
  refine ⟨fun s => ?_, by decide, by decide⟩
  cases h : validate_token s
  · exact Or.inr rfl
  · exact Or.inl rfl

/-- C8: `save_complaint` on a record whose token is missing or empty
returns with the database unchanged (no write to either table) and
without any error outcome. -/
theorem save_complaint_skips_missing_token (db : DB) (c : ComplaintData)
    (h : c.token = none ∨ c.token = some "") :
    save_complaint db c = db := by
  rcases h with h | h <;> simp [save_complaint, save_ops, h]

/-- Witness for C8: a record with no token and a record with an empty
token both leave the empty database untouched. -/
theorem save_complaint_skips_missing_token_witness :
    save_complaint ⟨[], []⟩ ⟨none, some (.vstr "Failed"), some [], none⟩ = ⟨[], []⟩ ∧
    save_complaint ⟨[], []⟩ ⟨some "", some (.vstr "Failed"), some [], none⟩ = ⟨[], []⟩ :=
  ⟨save_complaint_skips_missing_token _ _ (Or.inl rfl),
   save_complaint_skips_missing_token _ _ (Or.inr rfl)⟩

/-- C7: the batch produces exactly one result per token, in order, each
depending only on that token and the browser behaviour it encounters; and
every per-token fault (navigation failure, timeout, element not found,
other exception) is captured in that result's `error` field instead of
propagating — so one token's failure leaves every other token's result
unaffected. -/
theorem batch_isolation (beh : String → PageBehavior) (tokens : List String) :
    (fetch_token_details beh tokens).length = tokens.length ∧
    (∀ i : Nat, (fetch_token_details beh tokens)[i]? =
        (tokens[i]?).map (fun t => process_token (beh t) t)) ∧
    (∀ m t, (process_token (.navError m) t).error =
        some ("Failed to load website: " ++ m) ∧
      (process_token (.navError m) t).token = t) ∧
    (∀ t, (process_token .searchTimeout t).error =
        some "Timeout waiting for page elements") ∧
    (∀ m t, (process_token (.elementMissing m) t).error =
        some ("Element not found: " ++ m)) ∧
    (∀ m t, (process_token (.innerError m) t).error =
        some ("Error processing token: " ++ m)) := by
  refine ⟨List.length_map .., fun i => ?_, fun m t => ⟨rfl, rfl⟩,
    fun t => rfl, fun m t => rfl, fun m t => rfl⟩
  simp [fetch_token_details]

/-- C6: normalization replaces an empty string with the sentinel
`"Unknown"` in every field of the listing-stage dictionary built by
`extract_token_details_from_table`, but leaves drill-down fields (overview
fields and tracking-event fields, including the defaulted empty
`current_action`) unaltered, so drill-down fields retain the empty string
rather than `"Unknown"`. -/
theorem normalization_asymmetry :
    (∀ lo : ListingOutcome, ∀ kv ∈ extract_token_details_from_table lo,
        kv.2 ≠ PyVal.vstr "") ∧
    (∀ (d : List (String × PyVal)) (k : String), (k, PyVal.vstr "") ∈ d →
        (k, PyVal.vstr "Unknown") ∈ replace_empty_with_unknown d) ∧
    (∀ md : ModalData, (extract_track_details (.modal md)).overall_info =
        [("token_no", py_strip md.token_no), ("status", py_strip md.status),
         ("complaint_category", py_strip md.complaint_category),
         ("expected_resolved_date", py_strip md.expected_resolved_date)]) ∧
    (∀ cols : List String, 11 ≤ cols.length →
        (track_detail_of_cols cols).remark = py_strip (cols.getD 8 "")) ∧
    (∀ cols : List String, cols.length = 11 →
        (track_detail_of_cols cols).current_action = "") := by
  refine ⟨?_, ?_, fun md => rfl, fun cols _ => rfl, fun cols h => ?_⟩
  · intro lo kv hkv
    unfold extract_token_details_from_table replace_empty_with_unknown at hkv
    rw [List.mem_map] at hkv
    obtain ⟨ab, -, rfl⟩ := hkv
    by_cases hab : ab.2 = PyVal.vstr ""
    · simp [hab]
    · simp [hab]
  · intro d k h
    unfold replace_empty_with_unknown
    rw [List.mem_map]
    exact ⟨(k, PyVal.vstr ""), h, by simp⟩
  · simp [track_detail_of_cols, h]

/-- Witness for C6: a concrete empty listing field becomes `"Unknown"`,
while a concrete tracking row keeps its empty `remark` and its defaulted
empty `current_action`. -/
theorem normalization_asymmetry_witness :
    (("location", PyVal.vstr "Unknown") ∈
        replace_empty_with_unknown [("location", PyVal.vstr "")]) ∧
    (track_detail_of_cols
        ["1", "TKT1", "01-01-2024", "A", "c", "o", "d", "B", "", "02-01-2024", ""]).remark
      = "" ∧
    (track_detail_of_cols
        ["1", "TKT1", "01-01-2024", "A", "c", "o", "d", "B", "", "02-01-2024", ""]).current_action
      = "" := by
  refine ⟨normalization_asymmetry.2.1 _ "location" (by simp), ?_, ?_⟩
  · exact (normalization_asymmetry.2.2.2.1 _ (by decide)).trans (by decide)
  · exact normalization_asymmetry.2.2.2.2 _ (by decide)

/-- C9: in drill-down history extraction every source row with fewer than
11 columns is skipped, a row with exactly 11 columns gets an empty
`current_action`, and a row with 12 or more columns takes `current_action`
from the twelfth column. -/
theorem track_row_column_rules :
    (∀ md : ModalData, (extract_track_details (.modal md)).tracking_details =
        track_rows_details md.track_rows) ∧
    (∀ (cols : List String) (rows : List (List String)), cols.length < 11 →
        track_rows_details (cols :: rows) = track_rows_details rows) ∧
    (∀ (cols : List String) (rows : List (List String)), 11 ≤ cols.length →
        track_rows_details (cols :: rows) =
          track_detail_of_cols cols :: track_rows_details rows) ∧
    (∀ cols : List String, cols.length = 11 →
        (track_detail_of_cols cols).current_action = "") ∧
    (∀ cols : List String, 12 ≤ cols.length →
        (track_detail_of_cols cols).current_action = py_strip (cols.getD 11 "")) := by
  refine ⟨fun md => rfl, fun cols rows h => ?_, fun cols rows h => ?_,
    fun cols h => ?_, fun cols h => ?_⟩
  · simp [track_rows_details, List.filterMap_cons, Nat.not_le.mpr h]
  · simp [track_rows_details, List.filterMap_cons, h]
  · simp [track_detail_of_cols, h]
  · have h' : 11 < cols.length := by omega
    simp [track_detail_of_cols, h']

/-- Witness for C9: a one-cell row contributes nothing, an 11-column row
defaults `current_action` to the empty string, and a 12-column row takes
it from the twelfth cell. -/
theorem track_row_column_rules_witness :
    track_rows_details [["short"]] = [] ∧
    (track_detail_of_cols
        ["1", "t", "d", "f", "c", "o", "dep", "to", "r", "ad", "adv"]).current_action = "" ∧
    (track_detail_of_cols
        ["1", "t", "d", "f", "c", "o", "dep", "to", "r", "ad", "adv", "done"]).current_action
      = "done" := by
  refine ⟨(track_row_column_rules.2.1 ["short"] [] (by decide)).trans rfl, ?_, ?_⟩
  · exact track_row_column_rules.2.2.2.1 _ (by decide)
  · exact (track_row_column_rules.2.2.2.2 _ (by decide)).trans (by decide)

lemma child_fold_complaints (es : List TrackDetail) (t : String) (db : DB) :
    ((es.map (fun e => WriteOp.child (mkTrackingRow t e))).foldl apply_write
      db).complaints = db.complaints := by
  induction es generalizing db with
  | nil => rfl
  | cons e es ih =>
    simp only [List.map_cons, List.foldl_cons]
    rw [ih]
    rfl

lemma child_fold_tracking (es : List TrackDetail) (t : String) (db : DB) :
    ((es.map (fun e => WriteOp.child (mkTrackingRow t e))).foldl apply_write
      db).tracking_history =
      es.foldl (fun rows e => insert_ignore_tracking rows (mkTrackingRow t e))
        db.tracking_history := by
  induction es generalizing db with
  | nil => rfl
  | cons e es ih =>
    simp only [List.map_cons, List.foldl_cons]
    rw [ih]
    rfl

lemma save_complaint_complaints (db : DB) (c : ComplaintData) (t : String)
    (h : c.token = some t) (hne : t ≠ "") :
    (save_complaint db c).complaints =
      upsert_complaint db.complaints (mkComplaintRow t c) := by
  simp only [save_complaint, save_ops, h, if_neg hne, List.foldl_cons]
  rw [child_fold_complaints]
  rfl

lemma save_complaint_tracking (db : DB) (c : ComplaintData) (t : String)
    (h : c.token = some t) (hne : t ≠ "") :
    (save_complaint db c).tracking_history =
      (tracking_of c).foldl
        (fun rows e => insert_ignore_tracking rows (mkTrackingRow t e))
        db.tracking_history := by
  simp only [save_complaint, save_ops, h, if_neg hne, List.foldl_cons]
  rw [child_fold_tracking]
  rfl

lemma upsert_map_token (r x : ComplaintRow) :
    (if x.token == r.token then r else x).token = x.token := by
  by_cases hx : x.token = r.token
  · simp [hx]
  · simp [hx]

lemma upsert_map_id (r : ComplaintRow) (as : List ComplaintRow)
    (h : ∀ x ∈ as, x.token ≠ r.token) :
    as.map (fun x => if x.token == r.token then r else x) = as := by
  have hfa : ∀ x ∈ as, (if x.token == r.token then r else x) = x :=
    fun x hx => if_neg (by simp [h x hx])
  calc as.map (fun x => if x.token == r.token then r else x)
      = as.map id := List.map_congr_left hfa
    _ = as := List.map_id as

lemma filter_map_upsert_pos (r : ComplaintRow) :
    ∀ (rows : List ComplaintRow), pk_unique rows →
      rows.any (fun x => x.token == r.token) = true →
      (rows.map (fun x => if x.token == r.token then r else x)).filter
        (fun x => x.token == r.token) = [r] := by
  intro rows
  induction rows with
  | nil => intro _ hany; simp at hany
  | cons a as ih =>
    intro h hany
    obtain ⟨h1, h2⟩ := List.pairwise_cons.mp h
    by_cases ha : a.token = r.token
    · have hfa : (if a.token == r.token then r else a) = r := if_pos (by simp [ha])
      rw [List.map_cons, hfa, List.filter_cons_of_pos (by simp)]
      rw [upsert_map_id r as (fun x hx hxe => h1 x hx (ha.trans hxe.symm))]
      rw [List.filter_eq_nil_iff.mpr (fun x hx hpx => by
        have hx2 : x.token = r.token := by simpa using hpx
        exact h1 x hx (ha.trans hx2.symm))]
    · have hfa : (if a.token == r.token then r else a) = a := if_neg (by simp [ha])
      rw [List.map_cons, hfa, List.filter_cons_of_neg (by simp [ha])]
      have hany' : as.any (fun x => x.token == r.token) = true := by
        rcases List.any_eq_true.mp hany with ⟨x, hx, hpx⟩
        rcases List.mem_cons.mp hx with rfl | hx'
        · exact absurd (by simpa using hpx) ha
        · exact List.any_eq_true.mpr ⟨x, hx', hpx⟩
      exact ih h2 hany'

lemma pk_unique_upsert (rows : List ComplaintRow) (r : ComplaintRow)
    (h : pk_unique rows) : pk_unique (upsert_complaint rows r) := by
  unfold upsert_complaint
  by_cases hany : rows.any (fun x => x.token == r.token) = true
  · rw [if_pos hany]
    exact List.Pairwise.map _ (fun a b hab => by
      rwa [upsert_map_token, upsert_map_token]) h
  · rw [if_neg hany]
    rw [pk_unique, List.pairwise_append]
    refine ⟨h, List.pairwise_singleton .., ?_⟩
    intro a ha b hb heq
    simp only [List.mem_singleton] at hb
    subst hb
    exact hany (List.any_eq_true.mpr ⟨a, ha, by simp [heq]⟩)

lemma filter_upsert_eq (rows : List ComplaintRow) (r : ComplaintRow)
    (h : pk_unique rows) :
    (upsert_complaint rows r).filter (fun x => x.token == r.token) = [r] := by
  unfold upsert_complaint
  by_cases hany : rows.any (fun x => x.token == r.token) = true
  · rw [if_pos hany]
    exact filter_map_upsert_pos r rows h hany
  · rw [if_neg hany]
    rw [List.filter_append]
    rw [List.filter_eq_nil_iff.mpr (fun x hx hpx =>
      hany (List.any_eq_true.mpr ⟨x, hx, hpx⟩))]
    simp

lemma upsert_preserves_token_mem (rows : List ComplaintRow) (r : ComplaintRow)
    (s : String) (h : ∃ p ∈ rows, p.token = s) :
    ∃ p ∈ upsert_complaint rows r, p.token = s := by
  obtain ⟨p, hp, hps⟩ := h
  unfold upsert_complaint
  by_cases hany : rows.any (fun x => x.token == r.token) = true
  · rw [if_pos hany]
    exact ⟨_, List.mem_map_of_mem _ hp, by rw [upsert_map_token]; exact hps⟩
  · rw [if_neg hany]
    exact ⟨p, List.mem_append_left _ hp, hps⟩

lemma upsert_new_token_mem (rows : List ComplaintRow) (r : ComplaintRow) :
    ∃ p ∈ upsert_complaint rows r, p.token = r.token := by
  unfold upsert_complaint
  by_cases hany : rows.any (fun x => x.token == r.token) = true
  · rw [if_pos hany]
    obtain ⟨x, hx, hpx⟩ := List.any_eq_true.mp hany
    exact ⟨r, List.mem_map.mpr ⟨x, hx, if_pos hpx⟩, rfl⟩
  · rw [if_neg hany]
    exact ⟨r, List.mem_append_right _ (by simp), rfl⟩

lemma insert_ignore_mem (rows : List TrackingRow) (r x : TrackingRow)
    (hx : x ∈ insert_ignore_tracking rows r) : x ∈ rows ∨ x = r := by
  unfold insert_ignore_tracking at hx
  by_cases hany : rows.any
      (fun y => y.token == r.token && y.action_date == r.action_date) = true
  · rw [if_pos hany] at hx
    exact Or.inl hx
  · rw [if_neg hany] at hx
    rcases List.mem_append.mp hx with h | h
    · exact Or.inl h
    · exact Or.inr (by simpa using h)

lemma child_take_fold_fk (t : String) :
    ∀ (es : List TrackDetail) (n : Nat) (db : DB), fk_ok db →
      (∃ p ∈ db.complaints, p.token = t) →
      fk_ok (((es.map (fun e => WriteOp.child (mkTrackingRow t e))).take n).foldl
        apply_write db) := by
  intro es
  induction es with
  | nil => intro n db hfk _; simpa using hfk
  | cons e es ih =>
    intro n db hfk hp
    cases n with
    | zero => simpa using hfk
    | succ m =>
      simp only [List.map_cons, List.take_succ_cons, List.foldl_cons]
      refine ih m _ ?_ ?_
      · intro r hr
        rcases insert_ignore_mem _ _ _ hr with h | h
        · exact hfk r h
        · subst h
          obtain ⟨p, hpm, hpt⟩ := hp
          exact ⟨p, hpm, hpt⟩
      · exact hp

/-- C3: calling `save_complaint` twice with an identical record for a
non-empty token leaves exactly one row in the `complaints` table for that
token, and every non-key column of that row equals the values derived from
the (second) call's input — last-write-wins upsert, no merge across runs. -/
theorem save_complaint_upsert_last_write_wins (db : DB) (c : ComplaintData)
    (t : String) (htok : c.token = some t) (hne : t ≠ "")
    (hpk : pk_unique db.complaints) :
    (save_complaint (save_complaint db c) c).complaints.filter
        (fun x => x.token == t) = [mkComplaintRow t c] := by
  rw [save_complaint_complaints _ c t htok hne,
    save_complaint_complaints _ c t htok hne]
  exact filter_upsert_eq _ (mkComplaintRow t c) (pk_unique_upsert _ _ hpk)

/-- Witness for C3: saving the sample record twice into an empty database
leaves exactly the one expected row for token `"T60137"`. -/
theorem save_complaint_upsert_last_write_wins_witness :
    (save_complaint (save_complaint ⟨[], []⟩ sample_data1)
        sample_data1).complaints.filter (fun x => x.token == "T60137")
      = [mkComplaintRow "T60137" sample_data1] :=
  save_complaint_upsert_last_write_wins ⟨[], []⟩ sample_data1 "T60137" rfl
    (by decide) List.Pairwise.nil

/-- C4: two `save_complaint` calls supplying a tracking event with the
same `(token, action_date)` natural key but different remark text leave
exactly one `tracking_history` row for that key, and that row retains the
first write's remark (insert-or-ignore, never overwrite). -/
theorem tracking_insert_or_ignore_first_write_wins
    (db : DB) (c1 c2 : ComplaintData) (t : String) (e1 e2 : TrackDetail)
    (h1 : c1.token = some t) (h2 : c2.token = some t) (hne : t ≠ "")
    (ht1 : tracking_of c1 = [e1]) (ht2 : tracking_of c2 = [e2])
    (hd : e1.action_date = e2.action_date) (_hr : e1.remark ≠ e2.remark)
    (hfresh : ∀ x ∈ db.tracking_history,
        ¬(x.token = t ∧ x.action_date = e1.action_date)) :
    (save_complaint (save_complaint db c1) c2).tracking_history.filter
        (fun x => x.token == t && x.action_date == e1.action_date)
      = [mkTrackingRow t e1] ∧
    (mkTrackingRow t e1).remark = e1.remark := by
  refine ⟨?_, rfl⟩
  rw [save_complaint_tracking _ c2 t h2 hne, ht2,
    save_complaint_tracking _ c1 t h1 hne, ht1]
  simp only [List.foldl_cons, List.foldl_nil]
  have hins1 : insert_ignore_tracking db.tracking_history (mkTrackingRow t e1)
      = db.tracking_history ++ [mkTrackingRow t e1] := by
    unfold insert_ignore_tracking
    rw [if_neg]
    intro hany
    obtain ⟨x, hx, hpx⟩ := List.any_eq_true.mp hany
    exact hfresh x hx (by simpa [mkTrackingRow] using hpx)
  have hins2 : insert_ignore_tracking
      (db.tracking_history ++ [mkTrackingRow t e1]) (mkTrackingRow t e2)
      = db.tracking_history ++ [mkTrackingRow t e1] := by
    unfold insert_ignore_tracking
    rw [if_pos]
    exact List.any_eq_true.mpr
      ⟨mkTrackingRow t e1, by simp, by simp [mkTrackingRow, hd]⟩
  rw [hins1, hins2, List.filter_append]
  rw [List.filter_eq_nil_iff.mpr (fun x hx hpx =>
    hfresh x hx (by simpa using hpx))]
  simp [mkTrackingRow]

/-- Witness for C4: two runs over an empty database, same event key with
different remarks, leave exactly one row carrying the first remark. -/
theorem tracking_insert_or_ignore_first_write_wins_witness :
    (save_complaint (save_complaint ⟨[], []⟩ sample_data1)
        sample_data2).tracking_history.filter
        (fun x => x.token == "T60137" && x.action_date == "02-01-2024")
      = [mkTrackingRow "T60137" sample_event1] ∧
    (mkTrackingRow "T60137" sample_event1).remark = "Assigned to ward office" :=
  tracking_insert_or_ignore_first_write_wins ⟨[], []⟩ sample_data1 sample_data2
    "T60137" sample_event1 sample_event2 rfl rfl (by decide) rfl rfl rfl
    (by decide) (fun x hx => absurd hx (List.not_mem_nil x))

/-- C5: within every `save_complaint` call the parent `complaints` row is
written before any of the token's `tracking_history` child rows (the write
sequence is the parent upsert followed only by child inserts), so at no
intermediate point does a `tracking_history` row exist that references a
token with no `complaints` row. -/
theorem save_complaint_parent_before_children (db : DB) (c : ComplaintData)
    (h : fk_ok db) :
    (∀ n, fk_ok (((save_ops c).take n).foldl apply_write db)) ∧
    (save_ops c = [] ∨
      ∃ pr rest, save_ops c = WriteOp.parent pr :: rest ∧
        ∀ op ∈ rest, ∃ cr, op = WriteOp.child cr) := by
  constructor
  · intro n
    cases hc : c.token with
    | none => simpa [save_ops, hc] using h
    | some t =>
      by_cases hne : t = ""
      · simpa [save_ops, hc, hne] using h
      · cases n with
        | zero => simpa using h
        | succ m =>
          simp only [save_ops, hc, if_neg hne, List.take_succ_cons,
            List.foldl_cons]
          refine child_take_fold_fk t (tracking_of c) m _ ?_ ?_
          · intro r hr
            exact upsert_preserves_token_mem _ _ _ (h r hr)
          · exact upsert_new_token_mem _ _
  · cases hc : c.token with
    | none => exact Or.inl (by simp [save_ops, hc])
    | some t =>
      by_cases hne : t = ""
      · exact Or.inl (by simp [save_ops, hc, hne])
      · refine Or.inr ⟨mkComplaintRow t c,
          (tracking_of c).map (fun e => WriteOp.child (mkTrackingRow t e)),
          by simp [save_ops, hc, hne], ?_⟩
        intro op hop
        obtain ⟨e, -, heq⟩ := List.mem_map.mp hop
        exact ⟨mkTrackingRow t e, heq.symm⟩

/-- Witness for C5: on an empty database and the sample record, the
foreign-key invariant holds after each prefix of the write sequence. -/
theorem save_complaint_parent_before_children_witness :
    fk_ok (((save_ops sample_data1).take 1).foldl apply_write ⟨[], []⟩) ∧
    fk_ok (((save_ops sample_data1).take 2).foldl apply_write ⟨[], []⟩) :=
  ⟨(save_complaint_parent_before_children ⟨[], []⟩ sample_data1
      (fun r hr => absurd hr (List.not_mem_nil r))).1 1,
   (save_complaint_parent_before_children ⟨[], []⟩ sample_data1
      (fun r hr => absurd hr (List.not_mem_nil r))).1 2⟩

/-- Counterexample to C1 as stated: for the concrete token `"T60137"`
whose listing table is present but empty, the extraction result does carry
status `"Failed"` and error `"No data found for this token"`, yet passing
that result to `save_complaint` (as the batch loop does for every result)
creates a parent row in the `complaints` table — the persistence write is
not skipped, because the result's `token` field is non-empty. -/
theorem no_data_token_parent_row_written :
    (process_token (.loaded (.rows []) (some "") (fun _ => .modalTimeout))
        "T60137").status = PyVal.vstr "Failed" ∧
    (process_token (.loaded (.rows []) (some "") (fun _ => .modalTimeout))
        "T60137").error = some "No data found for this token" ∧
    (save_complaint ⟨[], []⟩
        (result_to_data
          (process_token (.loaded (.rows []) (some "") (fun _ => .modalTimeout))
            "T60137"))).complaints ≠ [] := by
  refine ⟨rfl, rfl, ?_⟩
  decide

/-- C1 (amended): a token whose listing table is present but empty yields
status `"Failed"` and error `"No data found for this token"`; however
`save_complaint` does write a parent `complaints` row for such a result
(status `"Failed"`, listing fields defaulted to `"Unknown"`, drill-down
fields `NULL`), since writes are only skipped when the `token` field
itself is missing or empty. -/
theorem no_data_failed_result_still_persisted
    (lo : ListingOutcome) (txt : String) (trk : String → TrackOutcome)
    (tok : String) (db : DB)
    (hlo : extract_token_details_from_table lo = [])
    (htxt : py_strip txt = "") (hne : tok ≠ "")
    (hpk : pk_unique db.complaints) :
    (process_token (.loaded lo (some txt) trk) tok).status
        = PyVal.vstr "Failed" ∧
    (process_token (.loaded lo (some txt) trk) tok).error
        = some "No data found for this token" ∧
    (save_complaint db
          (result_to_data
            (process_token (.loaded lo (some txt) trk) tok))).complaints.filter
        (fun x => x.token == tok)
      = [{ token := tok, status := some (PyVal.vstr "Failed"),
           description := PyVal.vstr "Unknown", location := PyVal.vstr "Unknown",
           complaint_type := PyVal.vstr "Unknown", complaint_category := none,
           expected_resolved_date := none }] := by
  have hr : process_token (.loaded lo (some txt) trk) tok =
      ⟨tok, .vstr "Failed", some "No data found for this token", [],
        empty_track_info⟩ := by
    simp [process_token, hlo, htxt]
  refine ⟨by rw [hr], by rw [hr], ?_⟩
  rw [hr]
  rw [save_complaint_complaints db _ tok rfl hne]
  have hrow : mkComplaintRow tok
      (result_to_data ⟨tok, .vstr "Failed",
        some "No data found for this token", [], empty_track_info⟩)
      = { token := tok, status := some (PyVal.vstr "Failed"),
          description := PyVal.vstr "Unknown", location := PyVal.vstr "Unknown",
          complaint_type := PyVal.vstr "Unknown", complaint_category := none,
          expected_resolved_date := none } := rfl
  rw [← hrow]
  exact filter_upsert_eq db.complaints
    (mkComplaintRow tok
      (result_to_data ⟨tok, .vstr "Failed",
        some "No data found for this token", [], empty_track_info⟩)) hpk

/-- Witness for amended C1: the concrete no-data scenario on an empty
database produces the failed result and exactly one `"Unknown"`-filled
parent row. -/
theorem no_data_failed_result_still_persisted_witness :
    (process_token (.loaded (.rows []) (some "") (fun _ => .modalTimeout))
        "T60137").status = PyVal.vstr "Failed" ∧
    (process_token (.loaded (.rows []) (some "") (fun _ => .modalTimeout))
        "T60137").error = some "No data found for this token" ∧
    (save_complaint ⟨[], []⟩
          (result_to_data
            (process_token
              (.loaded (.rows []) (some "") (fun _ => .modalTimeout))
              "T60137"))).complaints.filter (fun x => x.token == "T60137")
      = [{ token := "T60137", status := some (PyVal.vstr "Failed"),
           description := PyVal.vstr "Unknown", location := PyVal.vstr "Unknown",
           complaint_type := PyVal.vstr "Unknown", complaint_category := none,
           expected_resolved_date := none }] :=
  no_data_failed_result_still_persisted (.rows []) "" (fun _ => .modalTimeout)
    "T60137" ⟨[], []⟩ rfl rfl (by decide) List.Pairwise.nil
